import Mathlib

/-!
Verification of the two decision machines of the Practice-Next.js repository:
the Route Access Guard (the NextAuth `authorized` callback of `auth.ts` and the
default-export middleware of `middleware.ts`, both transcribed in
`header-diagram.md`) and the Navigation Menu Controller (the `Header` component
state plus the Headless UI `Disclosure` sections).
-/

namespace PracticeNext

/-- JS `path.startsWith(p)`, modelled as a character-list prefix test. -/
def jsStartsWith (s p : String) : Bool :=
  p.data.isPrefixOf s.data

namespace Guard

/-- Output of the Route Access Guard: the spec's three `RouteDecision` values.
The middleware's `Response.redirect(new URL('/login', nextUrl))` is
`denyRedirectToLogin "/login"`, its `Response.redirect(new URL('/dashboard',
nextUrl))` is `redirectAwayFromLogin "/dashboard"`, and falling through (the
middleware returns `undefined`) is `allow`. -/
inductive RouteDecision where
  | allow : RouteDecision
  | denyRedirectToLogin : String → RouteDecision
  | redirectAwayFromLogin : String → RouteDecision
  deriving DecidableEq

/-- The middleware of `middleware.ts`:

    const isLoggedIn = !!req.auth
    const isOnDashboard = nextUrl.pathname.startsWith('/dashboard')
    const isOnLogin = nextUrl.pathname.startsWith('/login')
    if (isOnDashboard && !isLoggedIn) return Response.redirect(new URL('/login', nextUrl))
    if (isOnLogin && isLoggedIn) return Response.redirect(new URL('/dashboard', nextUrl))

with the three local consts inlined at their use sites. -/
def decide (sessionPresent : Bool) (path : String) : RouteDecision :=
  if jsStartsWith path "/dashboard" && !sessionPresent then
    RouteDecision.denyRedirectToLogin "/login"
  else if jsStartsWith path "/login" && sessionPresent then
    RouteDecision.redirectAwayFromLogin "/dashboard"
  else
    RouteDecision.allow

/-- Output of the `authorized` callback: `true` (serve the page), `false`
(the framework redirects to the configured sign-in page), or an explicit
`Response.redirect`. -/
inductive AuthorizedResult where
  | ok : AuthorizedResult
  | refuse : AuthorizedResult
  | redirect : String → AuthorizedResult
  deriving DecidableEq

/-- The `authorized` callback of `auth.ts`:

    const isLoggedIn = !!auth?.user
    const isOnDashboard = nextUrl.pathname.startsWith('/dashboard')
    if (isOnDashboard) {
      if (isLoggedIn) return true
      return false
    } else if (isLoggedIn) {
      return Response.redirect(new URL('/dashboard', nextUrl))
    }
    return true
-/
def authorized (isLoggedIn : Bool) (path : String) : AuthorizedResult :=
  if jsStartsWith path "/dashboard" then
    if isLoggedIn then AuthorizedResult.ok else AuthorizedResult.refuse
  else if isLoggedIn then
    AuthorizedResult.redirect "/dashboard"
  else
    AuthorizedResult.ok

end Guard

/-- Menu Controller state: the `Header` component's `mobileMenuOpen` flag
together with the per-`Disclosure` open flag, keyed by section title. -/
structure MenuModel where
  isOpen : Bool
  sections : List (String × Bool)
  deriving DecidableEq

/-- The disclosure sections rendered inside the overlay: a single
`Disclosure` titled "Product", initially collapsed. -/
def initialSections : List (String × Bool) :=
  [("Product", false)]

/-- State on mount: `useState(false)` for `mobileMenuOpen`, every
`Disclosure` collapsed. -/
def initialMenu : MenuModel :=
  { isOpen := false, sections := initialSections }

/-- The hamburger button's `onClick → setMobileMenuOpen(true)`. -/
def openMenu (s : MenuModel) : MenuModel :=
  { s with isOpen := true }

/-- The close button's `onClick={() => setMobileMenuOpen(false)}` (also the
`Dialog` `onClose` path). -/
def closeMenu (s : MenuModel) : MenuModel :=
  { s with isOpen := false }

/-- A `DisclosureButton` activation: flip the internal open flag of the
section whose title matches `id`; every other section, and the dialog
visibility, are untouched. -/
def toggleSection (id : String) (s : MenuModel) : MenuModel :=
  { s with
    sections := s.sections.map fun p => if p.1 = id then (p.1, !p.2) else p }

/-- A path that begins with "/dashboard" cannot also begin with "/login":
the two prefixes disagree at their second character. -/
theorem startsWith_dashboard_not_login (p : String)
    (h : jsStartsWith p "/dashboard" = true) : jsStartsWith p "/login" = false := by
  rw [Bool.eq_false_iff]
  intro hb
  unfold jsStartsWith at h hb
  rw [List.isPrefixOf_iff_prefix] at h hb
  have hlp : "/login".data <+: "/dashboard".data :=
    List.prefix_of_prefix_length_le hb h (by decide)
  exact absurd hlp (by decide)

/-- Mapping the toggle function over a section table with no matching key is
the identity. -/
theorem toggle_map_of_no_match (id : String) :
    ∀ l : List (String × Bool), (∀ p ∈ l, p.1 ≠ id) →
      (l.map fun p => if p.1 = id then (p.1, !p.2) else p) = l := by
  intro l h
  induction l with
  | nil => rfl
  | cons a t ih =>
    have ha : a.1 ≠ id := h a (List.mem_cons_self a t)
    have ht : ∀ p ∈ t, p.1 ≠ id := fun p hp => h p (List.mem_cons_of_mem a hp)
    simp only [List.map_cons, if_neg ha, ih ht]

/-- Mapping the toggle function twice over a section table is the identity. -/
theorem toggle_map_toggle_map (id : String) :
    ∀ l : List (String × Bool),
      ((l.map fun p => if p.1 = id then (p.1, !p.2) else p).map
        fun p => if p.1 = id then (p.1, !p.2) else p) = l := by
  intro l
  induction l with
  | nil => rfl
  | cons a t ih =>
    by_cases ha : a.1 = id
    · simp [ha, ih]
      rw [← ha]
    · simp [ha, ih]

/-- Claim C1 counterexample: the path "/login/x" does not begin with
"/dashboard" and is not the login path "/login", yet with a session present
the middleware redirects it away instead of allowing it, because the login
check uses `startsWith('/login')`, not equality. -/
theorem c1_counterexample :
    jsStartsWith "/login/x" "/dashboard" = false ∧ "/login/x" ≠ "/login" ∧
    Guard.decide true "/login/x" ≠ Guard.RouteDecision.allow := by
  decide

/-- Claim C1 (amended): for every path that begins with neither "/dashboard"
nor "/login", `decide` returns Allow for both values of sessionPresent. -/
theorem c1_allow_unguarded (sessionPresent : Bool) (path : String)
    (hd : jsStartsWith path "/dashboard" = false)
    (hl : jsStartsWith path "/login" = false) :
    Guard.decide sessionPresent path = Guard.RouteDecision.allow := by
  unfold Guard.decide
  simp [hd, hl]

/-- Claim C1 witness: the home path "/" is allowed with a session present. -/
theorem c1_witness :
    jsStartsWith "/" "/dashboard" = false ∧ jsStartsWith "/" "/login" = false ∧
    Guard.decide true "/" = Guard.RouteDecision.allow :=
  ⟨by decide, by decide, c1_allow_unguarded true "/" (by decide) (by decide)⟩

/-- Claim C2: on every path beginning with "/dashboard", `decide` denies with
a redirect to "/login" when no session is present and allows when one is. -/
theorem c2_dashboard_gate (path : String)
    (hd : jsStartsWith path "/dashboard" = true) :
    Guard.decide false path = Guard.RouteDecision.denyRedirectToLogin "/login" ∧
    Guard.decide true path = Guard.RouteDecision.allow := by
  have hl := startsWith_dashboard_not_login path hd
  unfold Guard.decide
  simp [hd, hl]

/-- Claim C2 witness: the protected root "/dashboard" itself. -/
theorem c2_witness :
    Guard.decide false "/dashboard" = Guard.RouteDecision.denyRedirectToLogin "/login" ∧
    Guard.decide true "/dashboard" = Guard.RouteDecision.allow :=
  c2_dashboard_gate "/dashboard" (by decide)

/-- Claim C3 counterexample: "/loginextra" differs from the login path
"/login", yet with a session present `decide` still returns
RedirectAwayFromLogin — the redirect is not produced only at "/login". -/
theorem c3_counterexample :
    "/loginextra" ≠ "/login" ∧
    Guard.decide true "/loginextra" =
      Guard.RouteDecision.redirectAwayFromLogin "/dashboard" := by
  decide

/-- Claim C3 (amended): every path beginning with "/login" is, with a session
present, redirected away to "/dashboard"; RedirectAwayFromLogin arises only
for such paths and only with a session present, and its target is always
"/dashboard"; without a session the login path is allowed. -/
theorem c3_login_redirect (path : String) :
    (jsStartsWith path "/login" = true →
      Guard.decide true path = Guard.RouteDecision.redirectAwayFromLogin "/dashboard") ∧
    (∀ (b : Bool) (t : String),
      Guard.decide b path = Guard.RouteDecision.redirectAwayFromLogin t →
      jsStartsWith path "/login" = true ∧ b = true ∧ t = "/dashboard") ∧
    Guard.decide false "/login" = Guard.RouteDecision.allow := by
  refine ⟨fun hl => ?_, fun b t h => ?_, by decide⟩
  · unfold Guard.decide
    simp [hl]
  · unfold Guard.decide at h
    split at h
    · simp at h
    · split at h
      · rename_i hc
        rw [Bool.and_eq_true] at hc
        injection h with ht
        exact ⟨hc.1, hc.2, ht.symm⟩
      · simp at h

/-- Claim C3 witness: the login path itself with a session present. -/
theorem c3_witness :
    Guard.decide true "/login" = Guard.RouteDecision.redirectAwayFromLogin "/dashboard" :=
  (c3_login_redirect "/login").1 (by decide)

/-- Claim C4: re-applying `decide` to the target of either redirect decision
yields Allow — in particular decide(false, "/login") = Allow and
decide(true, "/dashboard") = Allow — so the guard emits no redirect chain. -/
theorem c4_no_redirect_chain (b : Bool) (path t : String) :
    Guard.decide false "/login" = Guard.RouteDecision.allow ∧
    Guard.decide true "/dashboard" = Guard.RouteDecision.allow ∧
    (Guard.decide b path = Guard.RouteDecision.denyRedirectToLogin t →
      Guard.decide b t = Guard.RouteDecision.allow) ∧
    (Guard.decide b path = Guard.RouteDecision.redirectAwayFromLogin t →
      Guard.decide b t = Guard.RouteDecision.allow) := by
  refine ⟨by decide, by decide, fun h => ?_, fun h => ?_⟩
  · cases b with
    | false =>
      unfold Guard.decide at h
      simp at h
      split at h
      · injection h with ht
        rw [← ht]
        decide
      · simp at h
    | true =>
      unfold Guard.decide at h
      simp at h
      split at h <;> simp at h
  · cases b with
    | false =>
      unfold Guard.decide at h
      simp at h
      split at h <;> simp at h
    | true =>
      unfold Guard.decide at h
      simp at h
      split at h
      · injection h with ht
        rw [← ht]
        decide
      · simp at h

/-- Claim C4 witness: the deny decision at "/dashboard" without a session has
target "/login", and `decide` allows that target. -/
theorem c4_witness : Guard.decide false "/login" = Guard.RouteDecision.allow :=
  (c4_no_redirect_chain false "/dashboard" "/login").2.2.1 (by decide)

/-- Claim C5: `decide` is total — on every session flag and every path it
returns one of the three decisions, with the only deny target "/login" and
the only away target "/dashboard"; there is no error outcome. -/
theorem c5_decide_total (sessionPresent : Bool) (path : String) :
    Guard.decide sessionPresent path = Guard.RouteDecision.allow ∨
    Guard.decide sessionPresent path = Guard.RouteDecision.denyRedirectToLogin "/login" ∨
    Guard.decide sessionPresent path =
      Guard.RouteDecision.redirectAwayFromLogin "/dashboard" := by
  unfold Guard.decide
  split
  · exact Or.inr (Or.inl rfl)
  · split
    · exact Or.inr (Or.inr rfl)
    · exact Or.inl rfl

/-- Claim C6: the `authorized` callback redirects a logged-in user to
"/dashboard" from every path outside the protected prefix, the home page
included, not only from the login page. -/
theorem c6_authorized_redirects_outside_dashboard (path : String)
    (h : jsStartsWith path "/dashboard" = false) :
    Guard.authorized true path = Guard.AuthorizedResult.redirect "/dashboard" := by
  unfold Guard.authorized
  simp [h]

/-- Claim C6 witness: the home page "/". -/
theorem c6_witness :
    Guard.authorized true "/" = Guard.AuthorizedResult.redirect "/dashboard" :=
  c6_authorized_redirects_outside_dashboard "/" (by decide)

/-- Claim C7: the overlay starts Closed on mount; from any state `openMenu`
makes `isOpen` true and a subsequent `closeMenu` makes it false; the only
other operation, `toggleSection`, never changes `isOpen`. -/
theorem c7_overlay_visibility (s : MenuModel) (id : String) :
    initialMenu.isOpen = false ∧
    (openMenu s).isOpen = true ∧
    (closeMenu (openMenu s)).isOpen = false ∧
    (toggleSection id s).isOpen = s.isOpen :=
  ⟨rfl, rfl, rfl, rfl⟩

/-- Claim C8: `toggleSection` with any id is an involution on the whole menu
state, so toggling twice returns every section to its original state. -/
theorem c8_toggleSection_involutive (id : String) (s : MenuModel) :
    toggleSection id (toggleSection id s) = s := by
  unfold toggleSection
  simp only [toggle_map_toggle_map]

/-- Claim C9: `toggleSection` with an id that names no section in the table
leaves the entire menu state unchanged (and, being a total function, raises
nothing). -/
theorem c9_toggleSection_unknown_noop (id : String) (s : MenuModel)
    (h : ∀ p ∈ s.sections, p.1 ≠ id) : toggleSection id s = s := by
  unfold toggleSection
  rw [toggle_map_of_no_match id s.sections h]

/-- Claim C9 witness: "Pricing" names no section of the initial menu. -/
theorem c9_witness : toggleSection "Pricing" initialMenu = initialMenu :=
  c9_toggleSection_unknown_noop "Pricing" initialMenu (by decide)

/-- Claim C10: visibility and disclosure are independent — `closeMenu` and
`openMenu` leave every section flag unchanged, `toggleSection` leaves
`isOpen` unchanged, and only the mount-time state has both at their defaults
(overlay closed, every section collapsed). -/
theorem c10_menu_section_independence (s : MenuModel) (id : String) :
    (closeMenu s).sections = s.sections ∧
    (openMenu s).sections = s.sections ∧
    (toggleSection id s).isOpen = s.isOpen ∧
    initialMenu.isOpen = false ∧
    ∀ p ∈ initialMenu.sections, p.2 = false :=
  ⟨rfl, rfl, rfl, rfl, by decide⟩

end PracticeNext
